import Mathlib

/-!
Verification of the Schnaps-Shot photo-border core (src/src/main.rs and
src/src/gui.rs) against its natural-language specification.

The Rust code is shallowly embedded: pure functions become Lean functions,
`u32` arithmetic becomes `Nat` (the border arithmetic only divides and adds
small quantities, so no wrap-around is reachable for realistic picture
dimensions and the additions in `process_image` are the quantities the spec
itself describes), fallible code returns `Except`, and the external
collaborators (image decoder, EXIF container reader, font rasterizer,
filesystem) are modelled as explicit inputs, since the spec places them
out of scope.
-/

-- ============================================================================
-- ERROR HANDLING (main.rs lines 43-70)
-- ============================================================================

/-- `PhotoBorderError` from main.rs: the four error kinds. The payloads of the
wrapped foreign error types are modelled by their display strings. -/
inductive PhotoBorderError where
  | ImageError (msg : String)
  | IoError (msg : String)
  | ExifError (msg : String)
  | FontError (msg : String)
deriving DecidableEq, Repr

/-- `impl fmt::Display for PhotoBorderError` (main.rs lines 59-68). -/
def PhotoBorderError.display : PhotoBorderError → String
  | .ImageError e => "Image processing error: " ++ e
  | .IoError e => "Input/output error: " ++ e
  | .ExifError e => "EXIF reading error: " ++ e
  | .FontError e => "Font error: " ++ e

-- ============================================================================
-- BORDER TYPES (main.rs lines 100-164)
-- ============================================================================

/-- `BorderType` enum (main.rs lines 100-108). -/
inductive BorderType where
  | Small
  | Medium
  | Large
deriving DecidableEq, Repr

/-- Rust `str::to_lowercase` restricted to the ASCII range, which is all that
the compared border tokens ("s", "small", ...) can distinguish: no non-ASCII
character has a Unicode lowercase mapping equal to any character of those
tokens, so the restriction does not change which strings are accepted. -/
def to_lowercase (s : String) : String :=
  String.mk (s.data.map Char.toLower)

/-- `BorderType::from_str` (main.rs lines 119-126). -/
def BorderType.from_str (s : String) : Except String BorderType :=
  match to_lowercase s with
  | "s" => .ok .Small
  | "small" => .ok .Small
  | "m" => .ok .Medium
  | "medium" => .ok .Medium
  | "l" => .ok .Large
  | "large" => .ok .Large
  | _ => .error "Invalid border type"

/-- `BorderType::get_border_size` (main.rs lines 141-163). Returns
`(top, right, bottom, left)` exactly as the Rust tuple does. `u32` division
and `min` on non-negative values are `Nat` division and `min`. -/
def BorderType.get_border_size (bt : BorderType) (img_width img_height : Nat) :
    Nat × Nat × Nat × Nat :=
  let min_dimension := min img_width img_height
  match bt with
  | .Small =>
      let bottom := min_dimension / 60
      (0, 0, bottom, 0)
  | .Medium =>
      let border := min_dimension / 15
      (border, border, border, border)
  | .Large =>
      let border := min_dimension / 10
      (border, border, border, border)

-- ============================================================================
-- THEOREM FOR CLAIM C2
-- ============================================================================

/-- C2: for every border style and positive width and height, with
`m = min width height`, `get_border_size` is total and pure and returns
non-negative insets: Small (the spec's Narrow) gives `(top, right, bottom,
left) = (0, 0, m / 60, 0)` with truncating division (so bottom is 0 when
`m < 60`, a valid output); Medium gives all four equal to `m / 15`; Large
gives all four equal to `m / 10`. -/
theorem c2_get_border_size_spec (w h : Nat) (hw : 0 < w) (hh : 0 < h) :
    (BorderType.get_border_size .Small w h = (0, 0, min w h / 60, 0)) ∧
    (BorderType.get_border_size .Medium w h =
      (min w h / 15, min w h / 15, min w h / 15, min w h / 15)) ∧
    (BorderType.get_border_size .Large w h =
      (min w h / 10, min w h / 10, min w h / 10, min w h / 10)) ∧
    (min w h < 60 → (BorderType.get_border_size .Small w h).2.2.1 = 0) ∧
    (∀ bt : BorderType,
      0 ≤ (BorderType.get_border_size bt w h).1 ∧
      0 ≤ (BorderType.get_border_size bt w h).2.1 ∧
      0 ≤ (BorderType.get_border_size bt w h).2.2.1 ∧
      0 ≤ (BorderType.get_border_size bt w h).2.2.2) := by
  refine ⟨rfl, rfl, rfl, ?_, ?_⟩
  · intro hlt
    simp [BorderType.get_border_size, Nat.div_eq_of_lt hlt]
  · intro bt
    exact ⟨Nat.zero_le _, Nat.zero_le _, Nat.zero_le _, Nat.zero_le _⟩

/-- Witness for C2 at width 100, height 45 (so `min = 45 < 60`). -/
theorem c2_get_border_size_spec_witness :
    (BorderType.get_border_size .Small 100 45 = (0, 0, 0, 0)) ∧
    (BorderType.get_border_size .Medium 100 45 = (3, 3, 3, 3)) := by
  have h := c2_get_border_size_spec 100 45 (by decide) (by decide)
  refine ⟨?_, ?_⟩
  · have := h.2.2.2.1 (by decide)
    have h1 := h.1
    rw [h1]
    decide
  · rw [h.2.1]
    decide

-- ============================================================================
-- PIXEL CANVAS AND COMPOSITING (main.rs lines 380-403)
-- ============================================================================

/-- An 8-bit RGB pixel (`Rgb<u8>` from the image crate); channel values are
kept as `Nat`, the code only ever stores the constants 255 and 64 and copies
source values. -/
structure Rgb where
  r : Nat
  g : Nat
  b : Nat
deriving DecidableEq, Repr

/-- The white fill `Rgb([255u8, 255u8, 255u8])` of main.rs line 399. -/
def white : Rgb := ⟨255, 255, 255⟩

/-- A decoded RGB pixel buffer (`ImageBuffer<Rgb<u8>, _>`): a width, a height
and the pixel at each coordinate. Coordinates outside `width × height` are
never consulted by the embedded operations. -/
structure Canvas where
  width : Nat
  height : Nat
  pix : Nat → Nat → Rgb

/-- `ImageBuffer::from_pixel` (main.rs line 399): a canvas with every pixel
equal to the given fill. -/
def from_pixel (w h : Nat) (c : Rgb) : Canvas :=
  ⟨w, h, fun _ _ => c⟩

/-- `image::imageops::overlay dst src left top` (main.rs line 403): writes the
source pixel `(x, y)` to destination coordinate `(left + x, top + y)`,
clipped to the destination bounds; `src` here is already plain RGB
(`img.to_rgb8()`), so the alpha blend of the library reduces to a copy. -/
def overlay (dst src : Canvas) (left top : Nat) : Canvas :=
  { dst with
    pix := fun x y =>
      if left ≤ x ∧ x < left + src.width ∧ x < dst.width ∧
         top ≤ y ∧ y < top + src.height ∧ y < dst.height then
        src.pix (x - left) (y - top)
      else
        dst.pix x y }

/-- The compositing steps of `PhotoBorder::process_image` (main.rs lines
388-403): compute the insets from the source dimensions, allocate the
enlarged all-white canvas, and overlay the source at offset `(left, top)`.
This is the spec's `compose(sourceCanvas, insets)` with the insets computed
from the same source's dimensions. -/
def compose (src : Canvas) (bt : BorderType) : Canvas :=
  let b := bt.get_border_size src.width src.height
  let top := b.1
  let right := b.2.1
  let bottom := b.2.2.1
  let left := b.2.2.2
  let new_width := src.width + left + right
  let new_height := src.height + top + bottom
  let bordered_img := from_pixel new_width new_height white
  overlay bordered_img src left top

-- ============================================================================
-- THEOREM FOR CLAIM C1
-- ============================================================================

/-- C1: for every source canvas of positive dimensions and the insets
`(top, right, bottom, left)` computed from those dimensions, the composited
canvas has dimensions `(width + left + right, height + top + bottom)`, every
source pixel appears unchanged at offset `(left, top)`, and every pixel of
the result outside that source rectangle is pure white `(255, 255, 255)`. -/
theorem c1_compose_spec (src : Canvas) (bt : BorderType)
    (hw : 0 < src.width) (hh : 0 < src.height) :
    ∀ top right bottom left,
      bt.get_border_size src.width src.height = (top, right, bottom, left) →
      ((compose src bt).width = src.width + left + right ∧
       (compose src bt).height = src.height + top + bottom) ∧
      (∀ x y, x < src.width → y < src.height →
        (compose src bt).pix (left + x) (top + y) = src.pix x y) ∧
      (∀ x y, x < (compose src bt).width → y < (compose src bt).height →
        (x < left ∨ left + src.width ≤ x ∨ y < top ∨ top + src.height ≤ y) →
        (compose src bt).pix x y = white) := by
  intro top right bottom left hb
  have hdim : (compose src bt).width = src.width + left + right ∧
      (compose src bt).height = src.height + top + bottom := by
    simp [compose, overlay, from_pixel, hb]
  refine ⟨hdim, ?_, ?_⟩
  · intro x y hx hy
    simp only [compose, overlay, from_pixel, hb]
    rw [if_pos]
    · congr 1 <;> omega
    · refine ⟨Nat.le_add_right _ _, by omega, by omega, Nat.le_add_right _ _, by omega, by omega⟩
  · intro x y hxw hyh hout
    rw [hdim.1] at hxw
    rw [hdim.2] at hyh
    simp only [compose, overlay, from_pixel, hb]
    rw [if_neg]
    intro hcond
    omega

/-- Witness for C1: a 60×90 source whose pixel at `(x, y)` is `(x, y, 7)`,
with the Medium style (insets all `min 60 90 / 15 = 4`). -/
theorem c1_compose_spec_witness :
    (compose ⟨60, 90, fun x y => ⟨x, y, 7⟩⟩ .Medium).width = 68 ∧
    (compose ⟨60, 90, fun x y => ⟨x, y, 7⟩⟩ .Medium).pix (4 + 1) (4 + 2) = ⟨1, 2, 7⟩ ∧
    (compose ⟨60, 90, fun x y => ⟨x, y, 7⟩⟩ .Medium).pix 0 0 = white := by
  have h := c1_compose_spec ⟨60, 90, fun x y => ⟨x, y, 7⟩⟩ .Medium
    (by decide) (by decide) 4 4 4 4 (by decide)
  refine ⟨?_, ?_, ?_⟩
  · rw [h.1.1]
  · exact h.2.1 1 2 (by decide) (by decide)
  · exact h.2.2 0 0 (by rw [h.1.1]; decide) (by rw [h.1.2]; decide) (Or.inl (by decide))

-- ============================================================================
-- EXIF DATA (main.rs lines 174-307)
-- ============================================================================

/-- The EXIF tags that `ExifData::from_file` consults (from the exif crate's
`Tag` constants used in main.rs lines 216-250). -/
inductive Tag where
  | Make
  | Model
  | LensModel
  | FocalLength
  | FNumber
  | ExposureTime
  | PhotographicSensitivity
  | DateTimeOriginal
deriving DecidableEq, Repr

/-- `ExifData` struct (main.rs lines 174-190); `Default` gives all fields
`None`. -/
structure ExifData where
  camera : Option String := none
  lens : Option String := none
  focal_length : Option String := none
  aperture : Option String := none
  shutter_speed : Option String := none
  iso : Option String := none
  date_taken : Option String := none
deriving DecidableEq, Repr

/-- Rust `str::trim_matches(c)`: removes every leading and trailing
occurrence of the character `c`. -/
def trim_matches (c : Char) (s : String) : String :=
  let l := s.toList.dropWhile (· == c)
  String.mk ((l.reverse.dropWhile (· == c)).reverse)

/-- The field-population logic of `ExifData::from_file` (main.rs lines
205-255). The external EXIF container is modelled by `getField`, the result
of `exif.get_field(tag, In::PRIMARY)` mapped through `display_value()`:
`some v` when the primary tag is present with display text `v`, else `none`.
Opening the file and parsing the container (which can fail) happen before
this logic and are modelled at the `process_image` level. -/
def ExifData.from_file (getField : Tag → Option String) : ExifData :=
  let exif_data : ExifData := {}
  let exif_data :=
    match getField Tag.Make, getField Tag.Model with
    | some _make, some model =>
        { exif_data with camera := some (trim_matches '"' model) }
    | _, _ => exif_data
  let exif_data :=
    match getField Tag.LensModel with
    | some lens => { exif_data with lens := some (trim_matches '"' lens) }
    | none => exif_data
  let exif_data :=
    match getField Tag.FocalLength with
    | some focal => { exif_data with focal_length := some (focal ++ "mm") }
    | none => exif_data
  let exif_data :=
    match getField Tag.FNumber with
    | some aperture => { exif_data with aperture := some ("f/" ++ aperture) }
    | none => exif_data
  let exif_data :=
    match getField Tag.ExposureTime with
    | some shutter => { exif_data with shutter_speed := some (shutter ++ "s") }
    | none => exif_data
  let exif_data :=
    match getField Tag.PhotographicSensitivity with
    | some iso => { exif_data with iso := some ("ISO " ++ iso) }
    | none => exif_data
  -- the DateTimeOriginal extraction is commented out in the source
  exif_data

/-- `ExifData::format_for_display` (main.rs lines 267-306): camera line, lens
line, one technical-settings line joining the present settings with " • ",
then the date line; each pushed only when present. -/
def ExifData.format_for_display (d : ExifData) : List String :=
  let lines : List String := []
  let lines :=
    match d.camera with
    | some camera => lines ++ [camera]
    | none => lines
  let lines :=
    match d.lens with
    | some lens => lines ++ [lens]
    | none => lines
  let settings : List String := []
  let settings :=
    match d.focal_length with
    | some focal => settings ++ [focal]
    | none => settings
  let settings :=
    match d.aperture with
    | some aperture => settings ++ [aperture]
    | none => settings
  let settings :=
    match d.shutter_speed with
    | some shutter => settings ++ [shutter]
    | none => settings
  let settings :=
    match d.iso with
    | some iso => settings ++ [iso]
    | none => settings
  let lines :=
    if !settings.isEmpty then lines ++ [String.intercalate " • " settings]
    else lines
  let lines :=
    match d.date_taken with
    | some date => lines ++ [date]
    | none => lines
  lines

-- ============================================================================
-- THEOREM FOR CLAIM C5
-- ============================================================================

set_option maxRecDepth 8000

/-- C5: for every tag-lookup result, extraction populates `camera` only when
both Make and Model are present (Make checked for presence only, Model's
display value quote-trimmed); `lens` is LensModel quote-trimmed; the four
technical fields get their "mm", "f/", "s" and "ISO " decorations;
`date_taken` is never populated; and every field is `none` exactly when its
tag is missing. -/
theorem c5_exif_extraction_spec (getField : Tag → Option String) :
    ((ExifData.from_file getField).camera =
      if (getField Tag.Make).isSome then
        (getField Tag.Model).map (trim_matches '"')
      else none) ∧
    ((ExifData.from_file getField).lens =
      (getField Tag.LensModel).map (trim_matches '"')) ∧
    ((ExifData.from_file getField).focal_length =
      (getField Tag.FocalLength).map (fun v => v ++ "mm")) ∧
    ((ExifData.from_file getField).aperture =
      (getField Tag.FNumber).map (fun v => "f/" ++ v)) ∧
    ((ExifData.from_file getField).shutter_speed =
      (getField Tag.ExposureTime).map (fun v => v ++ "s")) ∧
    ((ExifData.from_file getField).iso =
      (getField Tag.PhotographicSensitivity).map (fun v => "ISO " ++ v)) ∧
    ((ExifData.from_file getField).date_taken = none) := by
  unfold ExifData.from_file
  cases hmk : getField Tag.Make <;>
    cases hmd : getField Tag.Model <;>
      cases hl : getField Tag.LensModel <;>
        cases hf : getField Tag.FocalLength <;>
          cases ha : getField Tag.FNumber <;>
            cases hs : getField Tag.ExposureTime <;>
              cases hi : getField Tag.PhotographicSensitivity <;>
                simp

-- ============================================================================
-- THEOREM FOR CLAIM C6
-- ============================================================================

/-- Associativity of string concatenation, used to normalise formatted
lines. -/
theorem str_append_assoc (a b c : String) : a ++ b ++ c = a ++ (b ++ c) := by
  apply String.ext
  simp

/-- `String.intercalate` on a two-element list. -/
theorem intercalate_pair (s x y : String) :
    String.intercalate s [x, y] = x ++ s ++ y := rfl

/-- C6: formatting emits, in fixed order, the camera line if present, the
lens line if present, one technical line joining the present subset of
{focal length, aperture, shutter speed, iso} in that order with " • "
(omitted when all four are absent), then the date line if present; absent
fields contribute nothing. In particular the all-absent record formats to
the empty list, and a record with only aperture `f/v` and iso `ISO w`
formats to the single line `f/v • ISO w`. -/
theorem c6_format_for_display_spec :
    (∀ d : ExifData,
      d.format_for_display =
        d.camera.toList ++ d.lens.toList ++
        (let s := d.focal_length.toList ++ d.aperture.toList ++
            d.shutter_speed.toList ++ d.iso.toList
         if s = [] then [] else [String.intercalate " • " s]) ++
        d.date_taken.toList) ∧
    (ExifData.format_for_display {} = []) ∧
    (∀ a i : String,
      ExifData.format_for_display
        { aperture := some ("f/" ++ a), iso := some ("ISO " ++ i) } =
        ["f/" ++ a ++ " • ISO " ++ i]) := by
  refine ⟨?_, ?_, ?_⟩
  · intro d
    obtain ⟨c, l, f, a, s, i, dt⟩ := d
    unfold ExifData.format_for_display
    cases c <;> cases l <;> cases f <;> cases a <;> cases s <;> cases i <;>
      cases dt <;> simp
  · rfl
  · intro a i
    unfold ExifData.format_for_display
    have h : (" • " ++ "ISO " : String) = " • ISO " := rfl
    simp [intercalate_pair, str_append_assoc]
    rw [← h, str_append_assoc]

-- ============================================================================
-- OUTPUT PATH DERIVATION (main.rs lines 440-467)
-- ============================================================================

/-- A Rust `OsStr`: a platform string that may or may not be valid UTF-8.
`to_str` is `some` exactly when it is interpretable as text. -/
structure OsStringM where
  to_str : Option String
deriving DecidableEq, Repr

/-- A Rust `Path` as consulted by `generate_output_path`, modelled by the
results of the std accessors it calls (the std path-parsing itself is an
external collaborator): `file_stem` and `extension` as returned by
`Path::file_stem` / `Path::extension`, and `parent` as the displayable form
of `Path::parent` (`none` for a root or empty path). For an input like
"photo.jpg" the accessors give stem "photo", extension "jpg" and parent ""
(the empty path). -/
structure RustPath where
  file_stem : Option OsStringM
  extension : Option OsStringM
  parent : Option String
deriving DecidableEq, Repr

/-- Rust `Path::join` with a relative file name, for the displayable paths
this program builds: joining onto the empty path yields the bare file name,
otherwise a "/" separator is inserted unless one is already present. -/
def path_join (dir file : String) : String :=
  if dir = "" then file
  else if dir.data.getLast? = some '/' then dir ++ file
  else dir ++ "/" ++ file

/-- `PhotoBorder::generate_output_path` (main.rs lines 440-467): build
`<stem>_border.<extension>` and place it in the given output directory, or
next to the input (parent directory, defaulting to "."). Each missing or
non-text component is an early `IoError` return with the message the code
uses. -/
def generate_output_path (input_path : RustPath) (output_dir : Option String) :
    Except PhotoBorderError String :=
  match input_path.file_stem with
  | none => .error (.IoError "Invalid filename")
  | some stem_os =>
    match stem_os.to_str with
    | none => .error (.IoError "Invalid filename encoding")
    | some stem =>
      match input_path.extension with
      | none => .error (.IoError "No file extension")
      | some ext_os =>
        match ext_os.to_str with
        | none => .error (.IoError "Invalid extension encoding")
        | some extension =>
          let output_filename := stem ++ "_border." ++ extension
          match output_dir with
          | some dir => .ok (path_join dir output_filename)
          | none =>
            let parent := input_path.parent.getD "."
            .ok (path_join parent output_filename)

-- ============================================================================
-- THEOREM FOR CLAIM C7
-- ============================================================================

/-- C7: when the input path has a text file stem and a text extension, the
derived output path is `<stem>_border.<extension>` joined onto the supplied
output directory when given, else onto the input's own directory; and the
derivation fails, with an IoError-kind error, exactly when the stem or the
extension is missing or not interpretable as text. -/
theorem c7_generate_output_path_spec (p : RustPath) (output_dir : Option String) :
    (∀ stem ext : String,
      p.file_stem.bind OsStringM.to_str = some stem →
      p.extension.bind OsStringM.to_str = some ext →
      generate_output_path p output_dir =
        .ok (path_join (output_dir.getD (p.parent.getD "."))
              (stem ++ "_border." ++ ext))) ∧
    ((p.file_stem.bind OsStringM.to_str = none ∨
      p.extension.bind OsStringM.to_str = none) ↔
      ∃ msg, generate_output_path p output_dir =
        .error (PhotoBorderError.IoError msg)) := by
  obtain ⟨st, ex, par⟩ := p
  constructor
  · intro stem ext hstem hext
    cases st with
    | none => simp at hstem
    | some s =>
      cases hs : s.to_str with
      | none => simp [hs] at hstem
      | some sv =>
        cases ex with
        | none => simp at hext
        | some e =>
          cases he : e.to_str with
          | none => simp [he] at hext
          | some ev =>
            simp [hs] at hstem
            simp [he] at hext
            subst hstem hext
            cases output_dir <;> simp [generate_output_path, hs, he]
  · constructor
    · intro hmiss
      cases st with
      | none => exact ⟨"Invalid filename", rfl⟩
      | some s =>
        cases hs : s.to_str with
        | none => exact ⟨"Invalid filename encoding", by simp [generate_output_path, hs]⟩
        | some sv =>
          cases ex with
          | none => exact ⟨"No file extension", by simp [generate_output_path, hs]⟩
          | some e =>
            cases he : e.to_str with
            | none => exact ⟨"Invalid extension encoding", by simp [generate_output_path, hs, he]⟩
            | some ev =>
              exfalso
              rcases hmiss with h | h <;> simp [hs, he] at h
    · rintro ⟨msg, hmsg⟩
      by_contra hboth
      push_neg at hboth
      obtain ⟨h1, h2⟩ := hboth
      obtain ⟨stem, hstem⟩ := Option.ne_none_iff_exists'.mp h1
      obtain ⟨ext, hext⟩ := Option.ne_none_iff_exists'.mp h2
      cases st with
      | none => simp at hstem
      | some s =>
        cases ex with
        | none => simp at hext
        | some e =>
          simp only [Option.some_bind] at hstem hext
          cases output_dir <;>
            simp [generate_output_path, hstem, hext] at hmsg

/-- Witness for C7: input "photo.jpg" (stem "photo", extension "jpg",
parent the empty path) gives "photo_border.jpg" with no output directory and
"/out/photo_border.jpg" with output directory "/out". -/
theorem c7_generate_output_path_spec_witness :
    generate_output_path ⟨some ⟨some "photo"⟩, some ⟨some "jpg"⟩, some ""⟩ none =
      .ok "photo_border.jpg" ∧
    generate_output_path ⟨some ⟨some "photo"⟩, some ⟨some "jpg"⟩, some ""⟩ (some "/out") =
      .ok "/out/photo_border.jpg" := by
  constructor
  · have h := (c7_generate_output_path_spec
      ⟨some ⟨some "photo"⟩, some ⟨some "jpg"⟩, some ""⟩ none).1 "photo" "jpg" rfl rfl
    rw [h]
    congr 1
  · have h := (c7_generate_output_path_spec
      ⟨some ⟨some "photo"⟩, some ⟨some "jpg"⟩, some ""⟩ (some "/out")).1 "photo" "jpg" rfl rfl
    rw [h]
    congr 1

-- ============================================================================
-- THE PHOTO BORDER PROCESSOR AND ONE IMAGE JOB (main.rs lines 318-529)
-- ============================================================================

/-- `PhotoBorder` struct (main.rs lines 318-325); the loaded font bytes are
kept abstract. -/
structure PhotoBorder where
  border_type : BorderType
  show_exif : Bool
  font_data : Option (List Nat)
deriving DecidableEq, Repr

/-- The external collaborators one `process_image` call interacts with, as
the job observes them: the decoder's result for the input file
(`image::open`), the EXIF container reader's result (`Reader::
read_from_container` composed with field lookup), whether the font bytes
parse (`Font::try_from_vec`), and the encoder's result (`save`). -/
structure JobWorld where
  decode : Except PhotoBorderError Canvas
  exif_container : Except PhotoBorderError (Tag → Option String)
  font_parses : Bool
  save_result : Except PhotoBorderError Unit

/-- The control flow of `PhotoBorder::draw_exif_text` (main.rs lines
485-529): missing font data is a logged skip that still returns `Ok`; font
bytes that fail to parse are a `FontError`; otherwise the text is drawn (by
the external rasterizer) and the call returns `Ok`. -/
def draw_exif_text (pb : PhotoBorder) (w : JobWorld) : Except PhotoBorderError Unit :=
  match pb.font_data with
  | none => .ok ()
  | some _ =>
    if w.font_parses then .ok ()
    else .error (.FontError "Invalid font data")

instance exceptDecEq {ε α : Type} [DecidableEq ε] [DecidableEq α] :
    DecidableEq (Except ε α) := fun x y =>
  match x, y with
  | .ok a, .ok b =>
      if h : a = b then isTrue (by rw [h]) else isFalse (by simp [h])
  | .error a, .error b =>
      if h : a = b then isTrue (by rw [h]) else isFalse (by simp [h])
  | .ok _, .error _ => isFalse (by simp)
  | .error _, .ok _ => isFalse (by simp)

/-- Outcome of one `process_image` call: the returned value (the saved
output path on success), the warnings printed to stderr, and whether EXIF
extraction was attempted. -/
structure JobResult where
  result : Except PhotoBorderError String
  warnings : List String
  exif_attempted : Bool
deriving DecidableEq, Repr

/-- `PhotoBorder::process_image` (main.rs lines 380-426): decode, compute
borders and composite (`compose`), then — only when `show_exif` is set —
read the EXIF container and draw the text, converting either failure into a
printed warning; finally derive the output path and save. The pixels drawn
by the text overlay live in the external rasterizer and are not tracked;
the claims about this function concern its control flow and result. -/
def process_image (pb : PhotoBorder) (w : JobWorld) (input_path : RustPath)
    (output_dir : Option String) : JobResult :=
  match w.decode with
  | .error e => ⟨.error e, [], false⟩
  | .ok img =>
    let _bordered_img := compose img pb.border_type
    let warnings :=
      if pb.show_exif then
        match w.exif_container with
        | .ok getField =>
          let exif_data := ExifData.from_file getField
          let _lines := exif_data.format_for_display
          match draw_exif_text pb w with
          | .ok _ => []
          | .error e => ["Warning: Could not draw EXIF text: " ++ e.display]
        | .error e => ["Warning: Could not read EXIF data: " ++ e.display]
      else []
    match generate_output_path input_path output_dir with
    | .error e => ⟨.error e, warnings, pb.show_exif⟩
    | .ok output_path =>
      match w.save_result with
      | .error e => ⟨.error e, warnings, pb.show_exif⟩
      | .ok _ => ⟨.ok output_path, warnings, pb.show_exif⟩

-- ============================================================================
-- THEOREM FOR CLAIM C8
-- ============================================================================

/-- C8: with metadata display enabled, a failing EXIF extraction or a
failing text render is never fatal to the job: whenever the decode, the
output-path derivation and the save succeed, the job returns that saved
path whatever the EXIF container or the font did, and each such failure
surfaces only as a warning. -/
theorem c8_metadata_failures_not_fatal (pb : PhotoBorder) (w : JobWorld)
    (input_path : RustPath) (output_dir : Option String)
    (img : Canvas) (out : String)
    (hexif : pb.show_exif = true)
    (hdec : w.decode = .ok img)
    (hpath : generate_output_path input_path output_dir = .ok out)
    (hsave : w.save_result = .ok ()) :
    ((process_image pb w input_path output_dir).result = .ok out) ∧
    (∀ e, w.exif_container = .error e →
      (process_image pb w input_path output_dir).warnings =
        ["Warning: Could not read EXIF data: " ++ e.display]) ∧
    (∀ fb getField, pb.font_data = some fb → w.font_parses = false →
      w.exif_container = .ok getField →
      (process_image pb w input_path output_dir).warnings =
        ["Warning: Could not draw EXIF text: " ++
          (PhotoBorderError.FontError "Invalid font data").display]) := by
  refine ⟨?_, ?_, ?_⟩
  · unfold process_image
    rw [hdec, hpath, hsave]
  · intro e he
    unfold process_image
    rw [hdec, hpath, hsave, hexif, he]
    simp
  · intro fb getField hfb hfp hc
    unfold process_image
    rw [hdec, hpath, hsave, hexif, hc]
    simp [draw_exif_text, hfb, hfp]

/-- Witness for C8: a concrete job whose EXIF container is unreadable but
whose decode, path derivation and save succeed; the job still returns the
saved path and records the warning. -/
theorem c8_metadata_failures_not_fatal_witness :
    (process_image ⟨.Small, true, some [0]⟩
      ⟨.ok ⟨60, 60, fun _ _ => white⟩, .error (.ExifError "bad container"),
        true, .ok ()⟩
      ⟨some ⟨some "photo"⟩, some ⟨some "jpg"⟩, some ""⟩ none).result =
      .ok "photo_border.jpg" ∧
    (process_image ⟨.Small, true, some [0]⟩
      ⟨.ok ⟨60, 60, fun _ _ => white⟩, .error (.ExifError "bad container"),
        true, .ok ()⟩
      ⟨some ⟨some "photo"⟩, some ⟨some "jpg"⟩, some ""⟩ none).warnings =
      ["Warning: Could not read EXIF data: EXIF reading error: bad container"] := by
  have h := c8_metadata_failures_not_fatal ⟨.Small, true, some [0]⟩
    ⟨.ok ⟨60, 60, fun _ _ => white⟩, .error (.ExifError "bad container"), true, .ok ()⟩
    ⟨some ⟨some "photo"⟩, some ⟨some "jpg"⟩, some ""⟩ none
    ⟨60, 60, fun _ _ => white⟩ "photo_border.jpg" rfl rfl (by congr 1) rfl
  exact ⟨h.1, h.2.1 (.ExifError "bad container") rfl⟩

-- ============================================================================
-- BATCH PROCESSING (main.rs lines 546-577)
-- ============================================================================

/-- The state the loop of `PhotoBorder::process_multiple_images` accumulates:
the two counters, plus — as observable effects of the loop — the inputs
processed, in order, and the error lines printed to stderr, in order. -/
structure BatchState where
  success_count : Nat
  error_count : Nat
  processed : List String
  error_lines : List String
deriving DecidableEq, Repr

/-- The empty accumulator before the loop starts. -/
def initBatch : BatchState := ⟨0, 0, [], []⟩

/-- One batch input: its path together with the result its `process_image`
call produces. -/
abbrev BatchJob := String × Except PhotoBorderError Unit

/-- The sequential for-loop of `process_multiple_images` (main.rs lines
553-567): each input is processed in turn; a success bumps the success
counter, a failure prints one "Error processing path: cause" line and bumps
the error counter; the loop never stops early. -/
def run_batch : List BatchJob → BatchState → BatchState
  | [], st => st
  | (input_path, res) :: rest, st =>
    match res with
    | .ok _ =>
      run_batch rest
        { st with
          success_count := st.success_count + 1,
          processed := st.processed ++ [input_path] }
    | .error e =>
      run_batch rest
        { st with
          error_count := st.error_count + 1,
          processed := st.processed ++ [input_path],
          error_lines :=
            st.error_lines ++ ["Error processing " ++ input_path ++ ": " ++ e.display] }

/-- `PhotoBorder::process_multiple_images` (main.rs lines 546-577): run the
loop over all inputs and return `Ok(())` unconditionally; the final state
carries the counters the summary prints. -/
def process_multiple_images (jobs : List BatchJob) :
    BatchState × Except PhotoBorderError Unit :=
  (run_batch jobs initBatch, .ok ())

/-- The final summary block `process_multiple_images` prints (main.rs lines
570-574): the heading, the success-count line, and the error-count line
only when errors occurred. -/
def cli_summary_lines (st : BatchState) : List String :=
  ["Processing complete:",
   "  Successfully processed: " ++ toString st.success_count ++ " image(s)"] ++
  (if st.error_count > 0 then
    ["  Errors encountered: " ++ toString st.error_count ++ " image(s)"]
  else [])

/-- Number of successful jobs in a batch input list. -/
def countOks : List BatchJob → Nat
  | [] => 0
  | (_, .ok _) :: rest => countOks rest + 1
  | (_, .error _) :: rest => countOks rest

/-- Number of failed jobs in a batch input list. -/
def countErrs : List BatchJob → Nat
  | [] => 0
  | (_, .ok _) :: rest => countErrs rest
  | (_, .error _) :: rest => countErrs rest + 1

/-- The stderr line a failing job produces, if it fails. -/
def failure_line (j : BatchJob) : Option String :=
  match j.2 with
  | .ok _ => none
  | .error e => some ("Error processing " ++ j.1 ++ ": " ++ e.display)

/-- Closed form of the batch loop relative to an arbitrary starting state. -/
theorem run_batch_closed (jobs : List BatchJob) (st : BatchState) :
    run_batch jobs st =
      { success_count := st.success_count + countOks jobs,
        error_count := st.error_count + countErrs jobs,
        processed := st.processed ++ jobs.map Prod.fst,
        error_lines := st.error_lines ++ jobs.filterMap failure_line } := by
  induction jobs generalizing st with
  | nil => simp [run_batch, countOks, countErrs]
  | cons j rest ih =>
    obtain ⟨p, res⟩ := j
    cases res with
    | ok u =>
      simp [run_batch, ih, countOks, countErrs, failure_line,
        List.append_assoc, Nat.add_comm, Nat.add_assoc, Nat.add_left_comm]
    | error e =>
      simp [run_batch, ih, countOks, countErrs, failure_line,
        List.append_assoc, Nat.add_comm, Nat.add_assoc, Nat.add_left_comm]

/-- In every list of batch jobs, successes and failures partition the
inputs. -/
theorem countOks_add_countErrs (jobs : List BatchJob) :
    countOks jobs + countErrs jobs = jobs.length := by
  induction jobs with
  | nil => rfl
  | cons j rest ih =>
    obtain ⟨p, res⟩ := j
    cases res <;> simp [countOks, countErrs] <;> omega

-- ============================================================================
-- THEOREM FOR CLAIM C3
-- ============================================================================

/-- C3: the batch runner processes its inputs strictly sequentially in the
given order, turns each per-file failure into exactly one recorded failure
without stopping the batch, and itself always returns success (the empty
list giving zero work); when exactly 2 of the N inputs fail, the summary
counters are `success_count = N - 2` and `error_count = 2`. -/
theorem c3_batch_runner_spec (jobs : List BatchJob) :
    ((process_multiple_images jobs).2 = .ok ()) ∧
    ((process_multiple_images jobs).1.processed = jobs.map Prod.fst) ∧
    ((process_multiple_images jobs).1.success_count = countOks jobs) ∧
    ((process_multiple_images jobs).1.error_count = countErrs jobs) ∧
    ((process_multiple_images jobs).1.error_lines = jobs.filterMap failure_line) ∧
    (countErrs jobs = 2 →
      (process_multiple_images jobs).1.success_count = jobs.length - 2 ∧
      (process_multiple_images jobs).1.error_count = 2) := by
  have hc := run_batch_closed jobs initBatch
  have hsum := countOks_add_countErrs jobs
  unfold process_multiple_images
  rw [hc]
  refine ⟨rfl, by simp [initBatch], by simp [initBatch], by simp [initBatch],
    by simp [initBatch], ?_⟩
  intro h2
  constructor
  · simp only [initBatch, Nat.zero_add]
    omega
  · simp [initBatch, h2]

/-- Witness for C3: five inputs of which the second and the fifth fail;
the runner returns Ok, processes all five in order, and reports 3
successes and 2 failures. -/
theorem c3_batch_runner_spec_witness :
    ((process_multiple_images
        [("a.jpg", .ok ()),
         ("b.jpg", .error (.ImageError "undecodable")),
         ("c.jpg", .ok ()),
         ("d.jpg", .ok ()),
         ("e.jpg", .error (.ImageError "undecodable"))]).2 = .ok ()) ∧
    ((process_multiple_images
        [("a.jpg", .ok ()),
         ("b.jpg", .error (.ImageError "undecodable")),
         ("c.jpg", .ok ()),
         ("d.jpg", .ok ()),
         ("e.jpg", .error (.ImageError "undecodable"))]).1.processed =
       ["a.jpg", "b.jpg", "c.jpg", "d.jpg", "e.jpg"]) ∧
    ((process_multiple_images
        [("a.jpg", .ok ()),
         ("b.jpg", .error (.ImageError "undecodable")),
         ("c.jpg", .ok ()),
         ("d.jpg", .ok ()),
         ("e.jpg", .error (.ImageError "undecodable"))]).1.success_count = 3) ∧
    ((process_multiple_images
        [("a.jpg", .ok ()),
         ("b.jpg", .error (.ImageError "undecodable")),
         ("c.jpg", .ok ()),
         ("d.jpg", .ok ()),
         ("e.jpg", .error (.ImageError "undecodable"))]).1.error_count = 2) := by
  have h := c3_batch_runner_spec
    [("a.jpg", .ok ()),
     ("b.jpg", .error (.ImageError "undecodable")),
     ("c.jpg", .ok ()),
     ("d.jpg", .ok ()),
     ("e.jpg", .error (.ImageError "undecodable"))]
  have h2 := h.2.2.2.2.2 (by decide)
  exact ⟨h.1, by rw [h.2.1]; decide, by rw [h2.1]; decide, h2.2⟩

-- ============================================================================
-- GUI BATCH STATUS (gui.rs lines 151-199)
-- ============================================================================

/-- The per-file loop of `GuiApp::process_images_background` (gui.rs lines
166-181): accumulates `(success_count, error_count, error_details)`, the
details being "path: cause" strings in input order. -/
def gui_loop : List BatchJob → Nat × Nat × List String → Nat × Nat × List String
  | [], acc => acc
  | (file_path, res) :: rest, acc =>
    match res with
    | .ok _ => gui_loop rest (acc.1 + 1, acc.2.1, acc.2.2)
    | .error e =>
      gui_loop rest (acc.1, acc.2.1 + 1, acc.2.2 ++ [file_path ++ ": " ++ e.display])

/-- The accumulation performed by `GuiApp::process_images_background` over a
batch, starting from zero counters and no details. -/
def process_images_background (jobs : List BatchJob) : Nat × Nat × List String :=
  gui_loop jobs (0, 0, [])

/-- The detail entry a failing job contributes in the GUI loop. -/
def gui_failure_line (j : BatchJob) : Option String :=
  match j.2 with
  | .ok _ => none
  | .error e => some (j.1 ++ ": " ++ e.display)

/-- The status message `process_images_background` builds (gui.rs lines
184-196), split at its "\n" separators into lines: heading, success count,
then when errors occurred the error count, a blank line, "Error details:",
the first 5 "- path: cause" entries, and "... and N more errors" when more
than 5 failed. -/
def gui_status_lines (success_count error_count : Nat)
    (error_details : List String) : List String :=
  ["Processing complete!",
   "Successfully processed: " ++ toString success_count ++ " image(s)"] ++
  (if error_count > 0 then
    ["Errors: " ++ toString error_count ++ " image(s)"] ++
    (if error_details.isEmpty then []
     else
       ["", "Error details:"] ++
       (error_details.take 5).map (fun d => "- " ++ d) ++
       (if error_details.length > 5 then
          ["... and " ++ toString (error_details.length - 5) ++ " more errors"]
        else []))
   else [])

/-- Each failing job contributes exactly one GUI detail entry. -/
theorem gui_failure_lines_length (jobs : List BatchJob) :
    (jobs.filterMap gui_failure_line).length = countErrs jobs := by
  induction jobs with
  | nil => rfl
  | cons j rest ih =>
    obtain ⟨p, res⟩ := j
    cases res <;> simp [gui_failure_line, countErrs, ih]

/-- Closed form of the GUI loop relative to an arbitrary accumulator. -/
theorem gui_loop_closed (jobs : List BatchJob) (acc : Nat × Nat × List String) :
    gui_loop jobs acc =
      (acc.1 + countOks jobs, acc.2.1 + countErrs jobs,
       acc.2.2 ++ jobs.filterMap gui_failure_line) := by
  induction jobs generalizing acc with
  | nil => simp [gui_loop, countOks, countErrs]
  | cons j rest ih =>
    obtain ⟨p, res⟩ := j
    cases res with
    | ok u =>
      simp [gui_loop, ih, countOks, countErrs, gui_failure_line,
        List.append_assoc, Nat.add_comm, Nat.add_assoc, Nat.add_left_comm]
    | error e =>
      simp [gui_loop, ih, countOks, countErrs, gui_failure_line,
        List.append_assoc, Nat.add_comm, Nat.add_assoc, Nat.add_left_comm]

-- ============================================================================
-- THEOREMS FOR CLAIM C4
-- ============================================================================

/-- C4 counterexample: the claim reads the cap-of-5 failure-message
retention into every batch run, sourcing it at
`PhotoBorder::process_multiple_images` — but that (CLI) batch runner's
summary consists of count lines only. For the concrete 2-failure batch
below, the claim as stated requires the summary to retain both "path:
reason" entries, yet the summary is exactly its three count lines and
contains neither failure message in any form. -/
theorem c4_cli_summary_counterexample :
    ((process_multiple_images
        [("a.jpg", .error (.ImageError "bad")),
         ("b.jpg", .error (.ImageError "worse"))]).1.error_count = 2) ∧
    (cli_summary_lines
        (process_multiple_images
          [("a.jpg", .error (.ImageError "bad")),
           ("b.jpg", .error (.ImageError "worse"))]).1 =
      ["Processing complete:",
       "  Successfully processed: 0 image(s)",
       "  Errors encountered: 2 image(s)"]) ∧
    ("a.jpg: Image processing error: bad" ∉
      cli_summary_lines
        (process_multiple_images
          [("a.jpg", .error (.ImageError "bad")),
           ("b.jpg", .error (.ImageError "worse"))]).1) ∧
    ("- a.jpg: Image processing error: bad" ∉
      cli_summary_lines
        (process_multiple_images
          [("a.jpg", .error (.ImageError "bad")),
           ("b.jpg", .error (.ImageError "worse"))]).1) := by
  refine ⟨?_, ?_, ?_, ?_⟩ <;> decide

/-- C4 amended: the cap-of-5 retention with the "... and N more errors"
remainder note belongs to the GUI batch surface
(`GuiApp::process_images_background`), not to the CLI batch runner (whose
summary reports only counts, the per-file messages being streamed to stderr
as they happen). For every batch, the GUI run retains one "path: reason"
detail per failure in input order, and its status message displays the
first 5 of them as "- path: reason" lines followed by a "... and N more
errors" note exactly when more than 5 failed. -/
theorem c4_gui_cap_spec (jobs : List BatchJob) :
    ((process_images_background jobs).2.2 = jobs.filterMap gui_failure_line) ∧
    ((process_images_background jobs).2.1 =
      (jobs.filterMap gui_failure_line).length) ∧
    ((process_images_background jobs).1 = countOks jobs) ∧
    (0 < (process_images_background jobs).2.1 →
      gui_status_lines (process_images_background jobs).1
          (process_images_background jobs).2.1
          (process_images_background jobs).2.2 =
        ["Processing complete!",
         "Successfully processed: " ++
           toString (process_images_background jobs).1 ++ " image(s)",
         "Errors: " ++
           toString (process_images_background jobs).2.1 ++ " image(s)",
         "", "Error details:"] ++
        (((process_images_background jobs).2.2.take 5).map (fun d => "- " ++ d)) ++
        (if 5 < (process_images_background jobs).2.2.length then
           ["... and " ++
             toString ((process_images_background jobs).2.2.length - 5) ++
             " more errors"]
         else [])) := by
  have hlen := gui_failure_lines_length jobs
  have hc := gui_loop_closed jobs (0, 0, [])
  unfold process_images_background
  rw [hc]
  simp only [Nat.zero_add, List.nil_append]
  refine ⟨by simp, hlen.symm, by simp, ?_⟩
  intro hpos
  have hne : jobs.filterMap gui_failure_line ≠ [] := by
    intro hnil
    rw [hnil] at hlen
    simp at hlen
    omega
  simp [gui_status_lines, hpos, List.isEmpty_iff, hne, List.append_assoc]

/-- Witness for C4's amended theorem: a batch of one success and seven
failures; the GUI status shows the first five "- path: reason" lines and
the note "... and 2 more errors". -/
theorem c4_gui_cap_spec_witness :
    gui_status_lines
        (process_images_background
          [("ok.jpg", .ok ()),
           ("f1.jpg", .error (.ImageError "e1")),
           ("f2.jpg", .error (.ImageError "e2")),
           ("f3.jpg", .error (.ImageError "e3")),
           ("f4.jpg", .error (.ImageError "e4")),
           ("f5.jpg", .error (.ImageError "e5")),
           ("f6.jpg", .error (.ImageError "e6")),
           ("f7.jpg", .error (.ImageError "e7"))]).1
        (process_images_background
          [("ok.jpg", .ok ()),
           ("f1.jpg", .error (.ImageError "e1")),
           ("f2.jpg", .error (.ImageError "e2")),
           ("f3.jpg", .error (.ImageError "e3")),
           ("f4.jpg", .error (.ImageError "e4")),
           ("f5.jpg", .error (.ImageError "e5")),
           ("f6.jpg", .error (.ImageError "e6")),
           ("f7.jpg", .error (.ImageError "e7"))]).2.1
        (process_images_background
          [("ok.jpg", .ok ()),
           ("f1.jpg", .error (.ImageError "e1")),
           ("f2.jpg", .error (.ImageError "e2")),
           ("f3.jpg", .error (.ImageError "e3")),
           ("f4.jpg", .error (.ImageError "e4")),
           ("f5.jpg", .error (.ImageError "e5")),
           ("f6.jpg", .error (.ImageError "e6")),
           ("f7.jpg", .error (.ImageError "e7"))]).2.2 =
      ["Processing complete!",
       "Successfully processed: 1 image(s)",
       "Errors: 7 image(s)",
       "", "Error details:",
       "- f1.jpg: Image processing error: e1",
       "- f2.jpg: Image processing error: e2",
       "- f3.jpg: Image processing error: e3",
       "- f4.jpg: Image processing error: e4",
       "- f5.jpg: Image processing error: e5",
       "... and 2 more errors"] := by
  have h := (c4_gui_cap_spec
    [("ok.jpg", .ok ()),
     ("f1.jpg", .error (.ImageError "e1")),
     ("f2.jpg", .error (.ImageError "e2")),
     ("f3.jpg", .error (.ImageError "e3")),
     ("f4.jpg", .error (.ImageError "e4")),
     ("f5.jpg", .error (.ImageError "e5")),
     ("f6.jpg", .error (.ImageError "e6")),
     ("f7.jpg", .error (.ImageError "e7"))]).2.2.2 (by decide)
  rw [h]
  decide

-- ============================================================================
-- CLI LAUNCH (main.rs lines 649-740)
-- ============================================================================

/-- What the CLI run sees of one input file: the parsed form of its path and
the external collaborators its job interacts with. -/
structure FileEnv where
  path : RustPath
  job : JobWorld

/-- If-chain form of `BorderType::from_str`. -/
theorem from_str_eq (s : String) :
    BorderType.from_str s =
      if to_lowercase s = "s" ∨ to_lowercase s = "small" then .ok .Small
      else if to_lowercase s = "m" ∨ to_lowercase s = "medium" then .ok .Medium
      else if to_lowercase s = "l" ∨ to_lowercase s = "large" then .ok .Large
      else .error "Invalid border type" := by
  unfold BorderType.from_str
  split <;> simp_all

/-- The part of `launch_cli` (main.rs lines 649-740) downstream of argument
parsing: convert the border-type token (any parse error becoming a
`FontError` before any file is touched), build the `PhotoBorder` — with
`show_exif` passed as the literal `true` (main.rs line 732), the parsed
`exif_flag` being ignored — and run the batch over the files. The returned
pair is (inputs actually processed, in order; the run's result). Output-
directory validation and the font read are filesystem collaborators
modelled as succeeding. -/
def launch_cli (files : List (String × FileEnv)) (exif_flag : Bool)
    (border_type_str : String) (font_bytes : List Nat)
    (output_dir : Option String) :
    List String × Except PhotoBorderError (PhotoBorder × BatchState) :=
  match BorderType.from_str border_type_str with
  | .error e => ([], .error (.FontError e))
  | .ok border_type =>
    let _show_exif := exif_flag
    let photo_border : PhotoBorder :=
      { border_type := border_type, show_exif := true, font_data := some font_bytes }
    let jobs := files.map (fun f =>
      (f.1, (process_image photo_border f.2.job f.2.path output_dir).result.map
        (fun _ => ())))
    let st := run_batch jobs initBatch
    (st.processed, .ok (photo_border, st))

-- ============================================================================
-- THEOREM FOR CLAIM C9
-- ============================================================================

/-- C9: the style selector accepts exactly the case-insensitive tokens
s/small, m/medium, l/large, mapping them to the three styles; any other
token makes `from_str` fail, and `launch_cli` then returns a FontError-kind
failure with no input file processed. -/
theorem c9_style_token_spec (s : String) :
    (BorderType.from_str s = .ok .Small ↔
      (to_lowercase s = "s" ∨ to_lowercase s = "small")) ∧
    (BorderType.from_str s = .ok .Medium ↔
      (to_lowercase s = "m" ∨ to_lowercase s = "medium")) ∧
    (BorderType.from_str s = .ok .Large ↔
      (to_lowercase s = "l" ∨ to_lowercase s = "large")) ∧
    (BorderType.from_str s = .error "Invalid border type" ↔
      to_lowercase s ∉ (["s", "small", "m", "medium", "l", "large"] : List String)) ∧
    (∀ files exif_flag font_bytes output_dir,
      BorderType.from_str s = .error "Invalid border type" →
      launch_cli files exif_flag s font_bytes output_dir =
        ([], .error (.FontError "Invalid border type"))) := by
  have he := from_str_eq s
  refine ⟨?_, ?_, ?_, ?_, ?_⟩
  · rw [he]
    split_ifs with h1 h2 h3 <;> simp [h1]
  · rw [he]
    split_ifs with h1 h2 h3
    · rcases h1 with h | h <;> rw [h] <;> simp
    · simp [h2]
    · simp [h2]
    · simp [h2]
  · rw [he]
    split_ifs with h1 h2 h3
    · rcases h1 with h | h <;> rw [h] <;> simp
    · rcases h2 with h | h <;> rw [h] <;> simp
    · simp [h3]
    · simp [h3]
  · rw [he]
    split_ifs with h1 h2 h3
    · rcases h1 with h | h <;> simp [h]
    · rcases h2 with h | h <;> simp [h]
    · rcases h3 with h | h <;> simp [h]
    · push_neg at h1 h2 h3
      simp [h1.1, h1.2, h2.1, h2.2, h3.1, h3.2]
  · intro files exif_flag font_bytes output_dir herr
    simp [launch_cli, herr]

/-- Witness for C9: "L" is accepted as Large; "xl" is rejected and the CLI
run fails with a FontError before touching its (one-element) file list. -/
theorem c9_style_token_spec_witness :
    BorderType.from_str "L" = .ok .Large ∧
    launch_cli
        [("a.jpg", ⟨⟨some ⟨some "a"⟩, some ⟨some "jpg"⟩, some ""⟩,
          ⟨.ok ⟨60, 60, fun _ _ => white⟩, .error (.ExifError "none"), true, .ok ()⟩⟩)]
        false "xl" [0] none =
      ([], .error (.FontError "Invalid border type")) := by
  constructor
  · exact ((c9_style_token_spec "L").2.2.1).mpr (Or.inl (by decide))
  · exact (c9_style_token_spec "xl").2.2.2.2
      [("a.jpg", ⟨⟨some ⟨some "a"⟩, some ⟨some "jpg"⟩, some ""⟩,
        ⟨.ok ⟨60, 60, fun _ _ => white⟩, .error (.ExifError "none"), true, .ok ()⟩⟩)]
      false [0] none (by decide)

-- ============================================================================
-- THEOREM FOR CLAIM C10
-- ============================================================================

/-- C10: in every CLI run whose border token parses, the processor is
constructed with the EXIF flag hard-coded to `true`: the run's outcome is
independent of the parsed `-e`/`--exif` flag value, the constructed
`PhotoBorder` has `show_exif = true`, and consequently EXIF extraction is
attempted for every job whose decode succeeds. -/
theorem c10_cli_exif_hardcoded (files : List (String × FileEnv)) (exif_flag : Bool)
    (border_type_str : String) (font_bytes : List Nat) (output_dir : Option String)
    (bt : BorderType)
    (hok : BorderType.from_str border_type_str = .ok bt) :
    (∀ ef : Bool,
      launch_cli files ef border_type_str font_bytes output_dir =
        launch_cli files exif_flag border_type_str font_bytes output_dir) ∧
    (∃ st : BatchState,
      launch_cli files exif_flag border_type_str font_bytes output_dir =
        (files.map Prod.fst,
         .ok ({ border_type := bt, show_exif := true, font_data := some font_bytes }, st))) ∧
    (∀ name fe, (name, fe) ∈ files → ∀ img : Canvas, fe.job.decode = .ok img →
      (process_image { border_type := bt, show_exif := true, font_data := some font_bytes }
        fe.job fe.path output_dir).exif_attempted = true) := by
  refine ⟨?_, ?_, ?_⟩
  · intro ef
    simp [launch_cli, hok]
  · refine ⟨run_batch
      (files.map (fun f =>
        (f.1, (process_image
          { border_type := bt, show_exif := true, font_data := some font_bytes }
          f.2.job f.2.path output_dir).result.map (fun _ => ())))) initBatch, ?_⟩
    simp only [launch_cli, hok]
    rw [run_batch_closed]
    simp [initBatch, List.map_map, Function.comp]
  · intro name fe hmem img hdec
    unfold process_image
    rw [hdec]
    cases hgen : generate_output_path fe.path output_dir with
    | error e => simp
    | ok out =>
      cases hsave : fe.job.save_result with
      | error e => simp
      | ok u => simp

/-- Witness for C10: with token "m", a run over one file gives the same
result with the EXIF flag on or off, and the job of that file (whose decode
succeeds) attempts EXIF extraction. -/
theorem c10_cli_exif_hardcoded_witness :
    launch_cli
        [("a.jpg", ⟨⟨some ⟨some "a"⟩, some ⟨some "jpg"⟩, some ""⟩,
          ⟨.ok ⟨60, 60, fun _ _ => white⟩, .error (.ExifError "none"), true, .ok ()⟩⟩)]
        true "m" [0] none =
      launch_cli
        [("a.jpg", ⟨⟨some ⟨some "a"⟩, some ⟨some "jpg"⟩, some ""⟩,
          ⟨.ok ⟨60, 60, fun _ _ => white⟩, .error (.ExifError "none"), true, .ok ()⟩⟩)]
        false "m" [0] none ∧
    (process_image { border_type := .Medium, show_exif := true, font_data := some [0] }
        ⟨.ok ⟨60, 60, fun _ _ => white⟩, .error (.ExifError "none"), true, .ok ()⟩
        ⟨some ⟨some "a"⟩, some ⟨some "jpg"⟩, some ""⟩ none).exif_attempted = true := by
  have h := c10_cli_exif_hardcoded
    [("a.jpg", ⟨⟨some ⟨some "a"⟩, some ⟨some "jpg"⟩, some ""⟩,
      ⟨.ok ⟨60, 60, fun _ _ => white⟩, .error (.ExifError "none"), true, .ok ()⟩⟩)]
    false "m" [0] none .Medium (by decide)
  refine ⟨h.1 true, ?_⟩
  exact h.2.2 "a.jpg"
    ⟨⟨some ⟨some "a"⟩, some ⟨some "jpg"⟩, some ""⟩,
      ⟨.ok ⟨60, 60, fun _ _ => white⟩, .error (.ExifError "none"), true, .ok ()⟩⟩
    (List.Mem.head _) ⟨60, 60, fun _ _ => white⟩ rfl
